import Mathlib

set_option maxRecDepth 8000

/-!
Verification of the aegis-swarm investigation service against its
natural-language specification.

The development shallowly embeds the Python modules under `src/`:

* `CodeExecutor` — `src/utils/code_executor.py` (`SecureCodeExecutor`);
* `Intel`        — `src/agents/intel_agent.py` (`MOCK_DB`, `_query_mock_db`);
* `Analyst`      — `src/services/analyst_service.py` (`AnalystService.analyze`);
* `Orchestrator` — `src/services/investigation_service.py`
  (`run_investigation`, `_execute_task`) together with the state helpers of
  `src/models/state_models.py` and the persistence calls of
  `src/services/cosmos_service.py`.

External effects (the regex engine, the Python `exec` evaluator, the LLM
capabilities, the Cosmos writes) are passed in as oracle parameters; the
embedded functions reproduce the control flow of the source around them.
Wall-clock timestamps (`created_at`, `updated_at`, measured durations) are
carried as opaque data or dropped where no claim depends on their value.
-/

/-- Does the character list start with the pattern (second argument)? -/
def startsWithL : List Char → List Char → Bool
  | _, [] => true
  | [], _ :: _ => false
  | c :: cs, d :: ds => c == d && startsWithL cs ds

/-- Does the character list contain `pat` as a contiguous run? -/
def containsL (pat : List Char) : List Char → Bool
  | [] => startsWithL [] pat
  | c :: cs => startsWithL (c :: cs) pat || containsL pat cs

/-- Python's substring test `kw in s`. -/
def strContains (s kw : String) : Bool := containsL kw.data s.data

/-- Python `str.lower()` (ASCII case fold suffices for the fixed keywords). -/
def lowerStr (s : String) : String := ⟨s.data.map Char.toLower⟩

/-- The whitespace characters removed by Python `str.strip()`. -/
def isSpaceChar (c : Char) : Bool :=
  c == ' ' || c == '\t' || c == '\n' || c == '\r' || c == '\x0b' || c == '\x0c'

/-- Python `str.strip()`: drop whitespace from both ends. -/
def stripStr (s : String) : String :=
  ⟨((s.data.dropWhile isSpaceChar).reverse.dropWhile isSpaceChar).reverse⟩

namespace CodeExecutor

/-- A value held in the `exec` namespace: Python `None`, or any other value
together with its `str()` rendering. -/
inductive PyVal where
  | pyNone
  | pyVal (render : String)
deriving DecidableEq

/-- Python `str()` of a namespace value. -/
def pyStr : PyVal → String
  | .pyNone => "None"
  | .pyVal s => s

/-- `SecureCodeExecutor.FORBIDDEN_PATTERNS` (code_executor.py lines 32-45),
the regex denylist, kept verbatim as pattern strings. -/
def FORBIDDEN_PATTERNS : List String :=
  ["\\bos\\.", "\\bsubprocess\\.", "\\beval\\s*\\(", "\\bexec\\s*\\(",
   "\\b__import__\\s*\\(", "\\bopen\\s*\\(", "\\bcompile\\s*\\(",
   "\\bglobals\\s*\\(", "\\blocals\\s*\\(", "\\bdelattr\\s*\\(",
   "\\bsetattr\\s*\\(", "\\b__\\w+__"]

/-- The `dangerous_keywords` list of `validate_code` (lines 79). -/
def dangerous_keywords : List String :=
  ["import os", "import sys", "import subprocess", "from os"]

/-- `SecureCodeExecutor.TIMEOUT_SECONDS` (line 47).  Declared by the source
but never consulted by `execute`. -/
def TIMEOUT_SECONDS : Nat := 5

/-- `SecureCodeExecutor.validate_code` (lines 58-84).  `rmatch p c` stands for
the external regex engine: `re.search(p, c, re.IGNORECASE)` finding a match.
Returns the `CodeExecutionError` message raised, if any. -/
def validate_code (rmatch : String → String → Bool) (code : String) :
    Option String :=
  match FORBIDDEN_PATTERNS.find? (fun p => rmatch p code) with
  | some p =>
      some ("Code contains forbidden pattern: " ++ p ++
        ". Only pandas/numpy operations are allowed.")
  | none =>
      match dangerous_keywords.find? (fun kw => strContains (lowerStr code) kw) with
      | some kw => some ("Forbidden import detected: " ++ kw)
      | none => none

/-- A Python exception: class name and message, rendered as
`f"{type(e).__name__}: {str(e)}"` by `execute`. -/
structure PyError where
  name : String
  msg : String
deriving DecidableEq

/-- What the external `exec` produced: the text written to the redirected
stdout, and the final namespace in dict iteration order. -/
structure ExecOutcome where
  stdout : String
  ns : List (String × PyVal)
deriving DecidableEq

/-- The keys skipped by the fallback namespace scan (line 137). -/
def EXCLUDED_KEYS : List String :=
  ["df", "pd", "pandas", "np", "numpy", "__builtins__"]

/-- The fixed success message used when no output was produced (line 148). -/
def NO_OUTPUT_MSG : String := "Code executed successfully (no output)"

/-- The namespace-scan predicate (line 137): keep keys not in the excluded
list. -/
def scanKeep (kv : String × PyVal) : Bool := !(EXCLUDED_KEYS.contains kv.1)

/-- Output derivation of `execute` (lines 119-148): `output` starts as the
captured stdout; if that is empty and the snippet set a non-`None` `result`
variable, its `str()` is used; otherwise the namespace is scanned for the
first non-excluded key; the final text is stripped, an empty text becoming
`NO_OUTPUT_MSG`. -/
def extractOutput (stdout : String) (ns : List (String × PyVal)) : String :=
  let output :=
    if stdout ≠ "" then stdout
    else
      match ns.lookup "result" with
      | some (.pyVal s) => s
      | _ =>
        match ns.find? scanKeep with
        | some kv => pyStr kv.2
        | none => ""
  if output = "" then NO_OUTPUT_MSG else stripStr output

/-- Output derivation as the specification words it (spec §4.3): the
`result` variable first, captured stdout second, the fallback scan third;
compare with `extractOutput`, which is translated from the source. -/
def specExtractOutput (stdout : String) (ns : List (String × PyVal)) : String :=
  match ns.lookup "result" with
  | some (.pyVal s) => s
  | _ =>
    if stdout ≠ "" then stdout
    else
      match ns.find? scanKeep with
      | some kv => pyStr kv.2
      | none => "executed successfully, no output"

/-- The dict returned by `SecureCodeExecutor.execute` (lines 86-172). -/
structure ExecResult where
  success : Bool
  output : Option String
  error : Option String
  execution_time_ms : Nat
  code_executed : String
deriving DecidableEq

/-- `SecureCodeExecutor.execute` with the process stdout stream made
explicit: `stdout0` is `sys.stdout` on entry, `captured` the fresh
`StringIO`; the second component of the result is `sys.stdout` on return.
`evalCode` is the external `exec` (raising `PyError` or returning an
`ExecOutcome`); `elapsedMs` the measured wall-clock duration. -/
def executeSt {S : Type} (rmatch : String → String → Bool)
    (evalCode : String → Except PyError ExecOutcome)
    (elapsedMs : Nat) (captured : S) (code : String) (stdout0 : S) :
    ExecResult × S :=
  match validate_code rmatch code with
  | some msg =>
      ({ success := false, output := none,
         error := some ("Security violation: " ++ msg),
         execution_time_ms := elapsedMs, code_executed := code }, stdout0)
  | none =>
      let old_stdout := stdout0
      let redirected := captured
      match evalCode code with
      | .error e =>
          ({ success := false, output := none,
             error := some (e.name ++ ": " ++ e.msg),
             execution_time_ms := elapsedMs, code_executed := code },
           old_stdout)
      | .ok oc =>
          let _ := redirected
          ({ success := true,
             output := some (extractOutput oc.stdout oc.ns),
             error := none,
             execution_time_ms := elapsedMs, code_executed := code },
           old_stdout)

/-- `SecureCodeExecutor.execute`, result dict only. -/
def execute (rmatch : String → String → Bool)
    (evalCode : String → Except PyError ExecOutcome)
    (elapsedMs : Nat) (code : String) : ExecResult :=
  (executeSt rmatch evalCode elapsedMs () code ()).1

end CodeExecutor

namespace Intel

/-- One row of `IntelAgent.MOCK_DB` (intel_agent.py lines 22-51). -/
structure IPRecord where
  reputation : String
  category : String
  threat_score : Nat
  details : String
  country : String
  isp : String
deriving DecidableEq

/-- `IntelAgent.MOCK_DB`, the fixed local reputation table. -/
def MOCK_DB : List (String × IPRecord) :=
  [("89.248.172.16",
    ⟨"malicious", "brute_force_attacker", 95,
     "Known SSH/RDP brute force scanner reported by multiple sources.",
     "NL", "BadHosting Corp"⟩),
   ("185.220.101.17",
    ⟨"malicious", "tor_exit_node", 85,
     "Active TOR network exit node. Traffic is anonymized.",
     "DE", "Tor Exit Service"⟩),
   ("8.8.8.8",
    ⟨"benign", "dns_server", 0,
     "Google Public DNS. Trusted infrastructure.", "US", "Google LLC"⟩),
   ("1.1.1.1",
    ⟨"benign", "dns_server", 0,
     "Cloudflare Public DNS.", "US", "Cloudflare Inc"⟩)]

/-- The IPs of `MOCK_DB` whose record is classified malicious. -/
def maliciousIPs : List String :=
  (MOCK_DB.filter (fun kv => kv.2.reputation == "malicious")).map (fun kv => kv.1)

/-- `IPReputationResponse` (intel_models.py), the fields set by the mock
paths; `first_seen`/`last_seen`/`associated_threats` keep their defaults
there and are dropped. -/
structure IPReputationResponse where
  ip_address : String
  reputation : String
  threat_score : Nat
  category : String
  details : String
  geolocation : Option (String × String)
  source : String
deriving DecidableEq

/-- `IntelAgent._query_mock_db` (intel_agent.py lines 115-137). -/
def query_mock_db (ip : String) : IPReputationResponse :=
  match MOCK_DB.lookup ip with
  | some r =>
      ⟨ip, r.reputation, r.threat_score, r.category, r.details,
       some (r.country, r.isp), "mock_db"⟩
  | none =>
      ⟨ip, "unknown", 0, "unknown",
       "No intelligence found in internal database.", none, "mock_db_miss"⟩

end Intel

namespace Analyst

/-- `AnalystResponse` (constructed in analyst_service.py lines 104-113; its
model module is absent from the tree, the fields are those the service
sets). `data_summary` is flattened into its two entries. -/
structure AnalystResponse where
  query : String
  generated_code : String
  execution_result : CodeExecutor.ExecResult
  natural_language_answer : String
  confidence : String
  total_records : Nat
  dataset_path : String
deriving DecidableEq

/-- `AnalystService.MAX_RETRIES` (analyst_service.py line 28). -/
def MAX_RETRIES : Nat := 1

/-- The `while not exec_result['success'] and retry_count < MAX_RETRIES`
loop of `analyze` (lines 77-87).  `fuel` is `MAX_RETRIES - retry_count`;
`genCode q rc` is `AnalystAgent.generate_code(q, retry_context=rc)`;
`execF` is `executor.execute`.  Also returns the number of loop iterations
performed (each iteration makes one generator call and one execution). -/
def selfCorrect (genCode : String → Option String → String)
    (execF : String → CodeExecutor.ExecResult) (query : String) :
    Nat → String × CodeExecutor.ExecResult →
    (String × CodeExecutor.ExecResult) × Nat
  | 0, st => (st, 0)
  | fuel + 1, (code, res) =>
    if res.success then ((code, res), 0)
    else
      let code2 := genCode query res.error
      let res2 := execF code2
      let (st, n) := selfCorrect genCode execF query fuel (code2, res2)
      (st, n + 1)

/-- `AnalystService.analyze` (analyst_service.py lines 56-114), with the
dataset load abstracted to its observable `total_records`/path and the LLM
capabilities passed as oracles (`interp` is `interpret_result`, returning
the answer and the confidence).  Besides the response, the number of
self-correction iterations taken is returned. -/
def analyze (genCode : String → Option String → String)
    (execF : String → CodeExecutor.ExecResult)
    (interp : String → String → String → String × String)
    (nRecords : Nat) (path : String) (query : String) : AnalystResponse × Nat :=
  let code0 := genCode query none
  let res0 := execF code0
  let (st, loops) := selfCorrect genCode execF query MAX_RETRIES (code0, res0)
  let ac :=
    if st.2.success then interp query st.1 (st.2.output.getD "")
    else ("Unable to analyze: " ++ st.2.error.getD "", "low")
  (⟨query, st.1, st.2, ac.1, ac.2, nRecords, path⟩, loops)

end Analyst

namespace Orchestrator

/-- `AgentTask` (manager_models.py); `params` modelled as a string map. -/
structure AgentTask where
  agent : String
  action : String
  params : List (String × String)
  reasoning : String
deriving DecidableEq

/-- `InvestigationPlan` (manager_models.py). -/
structure InvestigationPlan where
  tasks : List AgentTask
  thought_process : String
deriving DecidableEq

/-- `ThreatVerdict` (manager_models.py); `confidence` is the 0..1 score. -/
structure ThreatVerdict where
  severity : String
  confidence : ℚ
  threat_summary : String
  evidence : List String
  recommended_actions : List String
  affected_assets : List String
deriving DecidableEq

/-- `NextStepDecision` (manager_agent.py lines 17-23), the planner's ReAct
decision shape. -/
structure NextStepDecision where
  decision : String
  reasoning : String
  tasks : List AgentTask
deriving DecidableEq

/-- The `output` value placed in a task result: an intel response dump, an
analyst response dump, an error map `{"error": msg}`, or (as `Option.none`
at the use site) Python `None`. -/
inductive TaskOutput where
  | intelResp (r : Intel.IPReputationResponse)
  | analystResp (r : Analyst.AnalystResponse)
  | errMap (msg : String)
deriving DecidableEq

/-- The dict returned by `InvestigationService._execute_task`
(investigation_service.py lines 134-148): on the success path the keys
`agent, action, status, output`; on the exception path `agent, action,
status, error`. -/
structure TaskResult where
  agent : String
  action : String
  status : String
  output : Option TaskOutput
  error : Option String
deriving DecidableEq

/-- `InvestigationService._execute_task` (lines 102-148).  `intelF` is
`intel_agent.lookup_ip` and `analystF` the analyst-service call, each
possibly raising (modelled by `Except`); any such exception is caught and
converted to a `status: "error"` result.  Python's truthiness test `if ip:`
makes a missing and an empty parameter behave alike. -/
def task_output (intelF : String → Except String Intel.IPReputationResponse)
    (analystF : String → Except String Analyst.AnalystResponse)
    (task : AgentTask) : Except String (Option TaskOutput) :=
  if task.agent = "intel" then
    if task.action = "lookup_ip" then
      match task.params.lookup "ip_address" with
      | some ip =>
          if ip ≠ "" then (intelF ip).map (fun r => some (.intelResp r))
          else .ok (some (.errMap "Missing 'ip_address' parameter"))
      | none => .ok (some (.errMap "Missing 'ip_address' parameter"))
    else .ok none
  else if task.agent = "analyst" then
    if task.action = "analyze_logs" then
      match task.params.lookup "query" with
      | some q =>
          if q ≠ "" then (analystF q).map (fun r => some (.analystResp r))
          else .ok (some (.errMap "Missing 'query' parameter"))
      | none => .ok (some (.errMap "Missing 'query' parameter"))
    else .ok none
  else .ok (some (.errMap ("Unknown agent: " ++ task.agent)))

/-- `InvestigationService._execute_task`, result dict: the `try` body is
`task_output`; an exception becomes the `status: "error"` dict. -/
def execute_task (intelF : String → Except String Intel.IPReputationResponse)
    (analystF : String → Except String Analyst.AnalystResponse)
    (task : AgentTask) : TaskResult :=
  match task_output intelF analystF task with
  | .ok out => ⟨task.agent, task.action, "success", out, none⟩
  | .error e => ⟨task.agent, task.action, "error", none, some e⟩

/-- One entry of `tasks_history`: either the dict appended by
`InvestigationState.add_task_result` (state_models.py lines 46-55), or the
`{"error": str(e)}` dict appended by the exception handler of
`run_investigation` (investigation_service.py line 98).  The wall-clock
`timestamp` is dropped. -/
inductive HistEntry where
  | taskRec (agent action : String) (params : List (String × String))
      (output : TaskResult)
  | err (msg : String)
deriving DecidableEq

/-- `InvestigationState` (state_models.py lines 14-41); the wall-clock
`created_at`/`updated_at` fields are dropped. -/
structure InvestigationState where
  id : String
  alert_text : String
  status : String
  plan : Option InvestigationPlan
  verdict : Option ThreatVerdict
  tasks_history : List HistEntry
deriving DecidableEq

/-- `InvestigationState.add_task_result`. -/
def add_task_result (st : InvestigationState) (task : AgentTask)
    (result : TaskResult) : InvestigationState :=
  { st with tasks_history :=
      st.tasks_history ++ [.taskRec task.agent task.action task.params result] }

/-- `InvestigationState.set_plan`. -/
def set_plan (st : InvestigationState) (p : InvestigationPlan) :
    InvestigationState :=
  { st with plan := some p }

/-- `InvestigationState.set_verdict` (state_models.py lines 62-66): stores
the verdict and unconditionally sets `status := "completed"`. -/
def set_verdict (st : InvestigationState) (v : ThreatVerdict) :
    InvestigationState :=
  { st with verdict := some v, status := "completed" }

/-- `CosmosService.create_investigation` (cosmos_service.py lines 31-43):
a fresh state with `status = "running"` (the `id` generation is passed in). -/
def create_investigation (id0 alert : String) : InvestigationState :=
  { id := id0, alert_text := alert, status := "running",
    plan := none, verdict := none, tasks_history := [] }

/-- The list `[t['output'] for t in state.tasks_history]`
(investigation_service.py line 80): each appended record's `output` key
holds the `_execute_task` result dict.  (An `err` entry has no such key;
that path never reaches synthesis.) -/
def histOutputs : List HistEntry → List TaskResult
  | [] => []
  | .taskRec _ _ _ r :: rest => r :: histOutputs rest
  | .err _ :: rest => histOutputs rest

/-- The record `_execute_task`+`add_task_result` append for one task. -/
def mkRec (intelF : String → Except String Intel.IPReputationResponse)
    (analystF : String → Except String Analyst.AnalystResponse)
    (t : AgentTask) : HistEntry :=
  .taskRec t.agent t.action t.params (execute_task intelF analystF t)

/-- Result of the execution loop of `run_investigation` (lines 66-73):
the exception raised by a failed `update_investigation` (if any), the
in-memory state on exit, the snapshots successfully persisted, the
in-memory snapshots after each `add_task_result`, and the index the next
`update_investigation` call will get. -/
structure LoopOut where
  failure : Option String
  final : InvestigationState
  persisted : List InvestigationState
  mem : List InvestigationState
  nextIdx : Nat
deriving DecidableEq

/-- The `for task in plan.tasks` loop (lines 66-73): execute the task,
append its record in memory, then persist; a persistence failure (the
`failAt` schedule says whether the `k`-th `update_investigation` call
raises) aborts the loop with the exception. -/
def runLoop (intelF : String → Except String Intel.IPReputationResponse)
    (analystF : String → Except String Analyst.AnalystResponse)
    (failAt : Nat → Bool) :
    List AgentTask → InvestigationState → Nat → LoopOut
  | [], st, k => ⟨none, st, [], [], k⟩
  | t :: ts, st, k =>
    let st2 := add_task_result st t (execute_task intelF analystF t)
    if failAt k then ⟨some "persistence failure", st2, [], [st2], k + 1⟩
    else
      let out := runLoop intelF analystF failAt ts st2 (k + 1)
      ⟨out.failure, out.final, st2 :: out.persisted, st2 :: out.mem,
       out.nextIdx⟩

/-- The `except` block of `run_investigation` (lines 94-100): set
`status = "failed"`, append the error to the history, attempt one more
persist (which may itself raise), then re-raise.  Returns the surfaced
error, the snapshots persisted by this block, and the final in-memory
state. -/
def emergency (failAt : Nat → Bool) (k : Nat) (st : InvestigationState)
    (e : String) :
    Except String InvestigationState × List InvestigationState ×
      InvestigationState :=
  let st2 :=
    { st with
      status := "failed"
      tasks_history := st.tasks_history ++ [.err e] }
  if failAt k then (.error "persistence failure", [], st2)
  else (.error e, [st2], st2)

/-- Everything observable about one `run_investigation` call: the returned
state or raised error, the snapshots successfully persisted (the
`create_investigation` document first), and the in-memory `status` value
after every state mutation, in program order. -/
structure RunOutcome where
  result : Except String InvestigationState
  persisted : List InvestigationState
  statusTrace : List String

/-- `InvestigationService.run_investigation` (investigation_service.py
lines 38-100).  `planF` is `manager_agent.plan_investigation` and `synthF`
`manager_agent.synthesize_verdict` (both catch their own exceptions in the
source, hence total here); `decideF` is `manager_agent.plan_next_step`,
the next-step capability the manager exposes — note the source never calls
it; `failAt` says which `update_investigation` calls raise.  The only
exception sources inside the `try` are those persistence calls: task-level
exceptions are absorbed by `_execute_task`. -/
def run_investigation (planF : String → InvestigationPlan)
    (decideF : InvestigationState → NextStepDecision)
    (intelF : String → Except String Intel.IPReputationResponse)
    (analystF : String → Except String Analyst.AnalystResponse)
    (synthF : String → List TaskResult → ThreatVerdict)
    (failAt : Nat → Bool) (id0 alert : String) : RunOutcome :=
  let st0 := create_investigation id0 alert
  let plan := planF alert
  let st1 := set_plan st0 plan
  if failAt 0 then
    let em := emergency failAt 1 st1 "persistence failure"
    ⟨em.1, st0 :: em.2.1,
     [st0.status, st1.status, em.2.2.status]⟩
  else
    let lo := runLoop intelF analystF failAt plan.tasks st1 1
    match lo.failure with
    | some e =>
      let em := emergency failAt lo.nextIdx lo.final e
      ⟨em.1, st0 :: st1 :: (lo.persisted ++ em.2.1),
       st0.status :: st1.status :: (lo.mem.map (fun s => s.status) ++
         [em.2.2.status])⟩
    | none =>
      let st2 := set_verdict lo.final (synthF alert (histOutputs lo.final.tasks_history))
      if failAt lo.nextIdx then
        let em := emergency failAt (lo.nextIdx + 1) st2 "persistence failure"
        ⟨em.1, st0 :: st1 :: (lo.persisted ++ em.2.1),
         st0.status :: st1.status :: (lo.mem.map (fun s => s.status) ++
           [st2.status, em.2.2.status])⟩
      else
        ⟨.ok st2, st0 :: st1 :: (lo.persisted ++ [st2]),
         st0.status :: st1.status :: (lo.mem.map (fun s => s.status) ++
           [st2.status])⟩

/-- Modelled from the spec (§4.1 step 2): the decide/execute loop the spec
describes — ask `decideF` for a next step, stop on a `stop` decision or an
empty task list, otherwise execute the returned tasks and iterate, at most
`maxLoops` times.  For comparison with `run_investigation`, which is
translated from the source. -/
def specDecideLoop (decideF : InvestigationState → NextStepDecision)
    (intelF : String → Except String Intel.IPReputationResponse)
    (analystF : String → Except String Analyst.AnalystResponse) :
    Nat → InvestigationState → InvestigationState
  | 0, st => st
  | n + 1, st =>
    let d := decideF st
    if d.decision = "stop" ∨ d.tasks = [] then st
    else
      specDecideLoop decideF intelF analystF n
        (d.tasks.foldl
          (fun s t => add_task_result s t (execute_task intelF analystF t)) st)

/-- Modelled from the spec (§4.1): the default iteration cap. -/
def specMaxLoops : Nat := 10

/-- Modelled from the spec (§4.1): create the state, run the decide/execute
loop up to `specMaxLoops` iterations, then synthesize the verdict. -/
def specRunInvestigation (decideF : InvestigationState → NextStepDecision)
    (intelF : String → Except String Intel.IPReputationResponse)
    (analystF : String → Except String Analyst.AnalystResponse)
    (synthF : String → List TaskResult → ThreatVerdict)
    (id0 alert : String) : InvestigationState :=
  let st0 := create_investigation id0 alert
  let stf := specDecideLoop decideF intelF analystF specMaxLoops st0
  set_verdict stf (synthF alert (histOutputs stf.tasks_history))

/-- The in-memory snapshots the loop persists, one per processed task:
each extends the previous history by that task's record. -/
def loopSnaps (intelF : String → Except String Intel.IPReputationResponse)
    (analystF : String → Except String Analyst.AnalystResponse) :
    List AgentTask → InvestigationState → List InvestigationState
  | [], _ => []
  | t :: ts, st =>
    let st2 := add_task_result st t (execute_task intelF analystF t)
    st2 :: loopSnaps intelF analystF ts st2

/-- The claim's allowed status transitions: a step keeps the status or
moves `running` to a terminal value. -/
def statusStepOK (a b : String) : Bool :=
  a == b || (a == "running" && (b == "completed" || b == "failed"))

/-- The claim's monotonicity of a sequence of observed status values. -/
def statusMonotone : List String → Bool
  | [] => true
  | [_] => true
  | a :: b :: rest => statusStepOK a b && statusMonotone (b :: rest)

/-- The successive histories the loop persists: each extends the previous
one by the next record. -/
def cumAppend (base : List HistEntry) : List HistEntry → List (List HistEntry)
  | [] => []
  | r :: rs => (base ++ [r]) :: cumAppend (base ++ [r]) rs

end Orchestrator

/-! ### Concrete instantiations used by witnesses and counterexamples -/

/-- A regex oracle under which no forbidden pattern fires. -/
def rm0 : String → String → Bool := fun _ _ => false

/-- An evaluation oracle: every snippet yields no stdout, empty namespace. -/
def ev0 : String → Except CodeExecutor.PyError CodeExecutor.ExecOutcome :=
  fun _ => .ok ⟨"", []⟩

/-- An evaluation oracle that always raises. -/
def evRaise : String → Except CodeExecutor.PyError CodeExecutor.ExecOutcome :=
  fun _ => .error ⟨"RuntimeError", "boom"⟩

/-- An evaluation oracle: the snippet prints and also sets `result`. -/
def evBoth : String → Except CodeExecutor.PyError CodeExecutor.ExecOutcome :=
  fun _ => .ok ⟨"printed", [("result", .pyVal "42")]⟩

/-- An evaluation oracle: no stdout, `result` set to `7`. -/
def evRes : String → Except CodeExecutor.PyError CodeExecutor.ExecOutcome :=
  fun _ => .ok ⟨"", [("result", .pyVal "7")]⟩

/-- A code generator: `codeA` initially, `codeB` after a retry context. -/
def genA : String → Option String → String :=
  fun _ rc => match rc with | none => "codeA" | some _ => "codeB"

/-- An executor closure that fails on every snippet. -/
def exeFail : String → CodeExecutor.ExecResult :=
  fun c => ⟨false, none, some "NameError: name 'x' is not defined", 1, c⟩

/-- An interpretation capability with a fixed answer. -/
def interpA : String → String → String → String × String :=
  fun _ _ _ => ("answer", "high")

/-- A planner returning the empty fallback plan. -/
def planF0 : String → Orchestrator.InvestigationPlan := fun _ => ⟨[], "fallback"⟩

/-- A planner returning two tasks, one per agent. -/
def planF2 : String → Orchestrator.InvestigationPlan := fun _ =>
  ⟨[⟨"intel", "lookup_ip", [("ip_address", "8.8.8.8")], "check reputation"⟩,
    ⟨"analyst", "analyze_logs", [("query", "count events")], "count"⟩],
   "look up the IP, then count events"⟩

/-- A next-step capability that always continues with one intel task. -/
def decideGo : Orchestrator.InvestigationState → Orchestrator.NextStepDecision :=
  fun _ => ⟨"continue", "dig deeper",
    [⟨"intel", "lookup_ip", [("ip_address", "8.8.8.8")], "check"⟩]⟩

/-- A next-step capability that immediately stops. -/
def decideStop : Orchestrator.InvestigationState → Orchestrator.NextStepDecision :=
  fun _ => ⟨"stop", "enough evidence", []⟩

/-- The intel handler backed by the mock reputation table. -/
def intelF0 : String → Except String Intel.IPReputationResponse :=
  fun ip => .ok (Intel.query_mock_db ip)

/-- An analyst handler whose dataset load raises. -/
def analystF0 : String → Except String Analyst.AnalystResponse :=
  fun _ => .error "Dataset not found: data/raw/firewall_logs.csv"

/-- A fixed verdict for the synthesis capability. -/
def verdict0 : Orchestrator.ThreatVerdict :=
  ⟨"medium", 0, "synthesized", [], [], []⟩

/-- A synthesis capability with a fixed verdict. -/
def synthF0 : String → List Orchestrator.TaskResult → Orchestrator.ThreatVerdict :=
  fun _ _ => verdict0

/-- The persistence schedule with no failures. -/
def noFail : Nat → Bool := fun _ => false

/-- The persistence schedule where the `k`-th and all later writes fail. -/
def failFrom (k : Nat) : Nat → Bool := fun m => decide (k ≤ m)

/-- The persistence schedule where exactly the `k`-th write fails. -/
def failOnly (k : Nat) : Nat → Bool := fun m => m == k

/-! ## Theorems -/

open CodeExecutor Intel Analyst Orchestrator

/-- Helper: a matching pattern or keyword makes `validate_code` report a
violation. -/
theorem validate_code_isSome (rmatch : String → String → Bool) (code : String)
    (h : (∃ p ∈ FORBIDDEN_PATTERNS, rmatch p code = true) ∨
         (∃ kw ∈ dangerous_keywords, strContains (lowerStr code) kw = true)) :
    ∃ m, validate_code rmatch code = some m := by
  rcases h with ⟨p, hp, hr⟩ | ⟨kw, hk, hc⟩
  · rcases hfind : FORBIDDEN_PATTERNS.find? (fun q => rmatch q code) with _ | q
    · exact absurd hr (by simpa using List.find?_eq_none.mp hfind p hp)
    · exact ⟨"Code contains forbidden pattern: " ++ q ++
        ". Only pandas/numpy operations are allowed.",
        by simp [validate_code, hfind]⟩
  · rcases hfind : FORBIDDEN_PATTERNS.find? (fun q => rmatch q code) with _ | q
    · rcases hfind2 : dangerous_keywords.find?
          (fun k => strContains (lowerStr code) k) with _ | q2
      · exact absurd hc (by simpa using List.find?_eq_none.mp hfind2 kw hk)
      · exact ⟨"Forbidden import detected: " ++ q2,
          by simp [validate_code, hfind, hfind2]⟩
    · exact ⟨"Code contains forbidden pattern: " ++ q ++
        ". Only pandas/numpy operations are allowed.",
        by simp [validate_code, hfind]⟩

/-- C2: a snippet matching any forbidden pattern of the denylist, or
containing a forbidden import keyword, makes `execute` return
`success = false` with an error carrying the security-violation prefix,
and the snippet is never evaluated: the result does not depend on the
evaluation oracle at all. -/
theorem C2_security_gate (rmatch : String → String → Bool) (code : String)
    (h : (∃ p ∈ FORBIDDEN_PATTERNS, rmatch p code = true) ∨
         (∃ kw ∈ dangerous_keywords, strContains (lowerStr code) kw = true)) :
    ∀ (ev ev' : String → Except PyError ExecOutcome) (t : Nat),
      (execute rmatch ev t code).success = false ∧
      (∃ rest, (execute rmatch ev t code).error =
        some ("Security violation: " ++ rest)) ∧
      execute rmatch ev t code = execute rmatch ev' t code := by
  obtain ⟨m, hm⟩ := validate_code_isSome rmatch code h
  intro ev ev' t
  refine ⟨?_, ⟨m, ?_⟩, ?_⟩ <;> simp [execute, executeSt, hm]

/-- C2 witness: the snippet `"import os; os.listdir()"` is rejected without
consulting the evaluator. -/
theorem C2_security_gate_witness :
    ((∃ p ∈ FORBIDDEN_PATTERNS, rm0 p "import os; os.listdir()" = true) ∨
     (∃ kw ∈ dangerous_keywords,
        strContains (lowerStr "import os; os.listdir()") kw = true)) ∧
    (execute rm0 ev0 3 "import os; os.listdir()").success = false ∧
    (∃ rest, (execute rm0 ev0 3 "import os; os.listdir()").error =
      some ("Security violation: " ++ rest)) ∧
    execute rm0 ev0 3 "import os; os.listdir()" =
      execute rm0 evRaise 3 "import os; os.listdir()" := by
  have h : (∃ p ∈ FORBIDDEN_PATTERNS, rm0 p "import os; os.listdir()" = true) ∨
      (∃ kw ∈ dangerous_keywords,
        strContains (lowerStr "import os; os.listdir()") kw = true) :=
    Or.inr ⟨"import os", by decide, by decide⟩
  obtain ⟨h1, h2, h3⟩ := C2_security_gate rm0 "import os; os.listdir()" h ev0 evRaise 3
  exact ⟨h, h1, h2, h3⟩

/-- C6 counterexample: for a snippet that both prints and sets `result`,
the spec's priority (result variable first) yields `"42"` while the code
returns the captured stdout `"printed"`. -/
theorem C6_counterexample :
    specExtractOutput "printed" [("result", PyVal.pyVal "42")] = "42" ∧
    (execute rm0 evBoth 1 "q").output = some "printed" ∧
    ("printed" : String) ≠ "42" := by
  refine ⟨rfl, by decide, by decide⟩

/-- C6 amended: `execute` derives the output with captured stdout first,
the `result` variable (when set non-`None`) second, the namespace scan
third; if the chosen text is empty the fixed no-output message is
returned, otherwise the text is stripped. -/
theorem C6_output_priority (rmatch : String → String → Bool)
    (ev : String → Except PyError ExecOutcome) (t : Nat)
    (code stdout : String) (ns : List (String × PyVal))
    (hv : validate_code rmatch code = none)
    (he : ev code = .ok ⟨stdout, ns⟩) :
    (execute rmatch ev t code).output = some (extractOutput stdout ns) ∧
    (stdout ≠ "" → extractOutput stdout ns = stripStr stdout) ∧
    (∀ s, stdout = "" → ns.lookup "result" = some (.pyVal s) →
      extractOutput stdout ns = if s = "" then NO_OUTPUT_MSG else stripStr s) ∧
    (∀ kv, stdout = "" →
      (ns.lookup "result" = none ∨ ns.lookup "result" = some .pyNone) →
      ns.find? scanKeep = some kv →
      extractOutput stdout ns =
        if pyStr kv.2 = "" then NO_OUTPUT_MSG else stripStr (pyStr kv.2)) ∧
    (stdout = "" →
      (ns.lookup "result" = none ∨ ns.lookup "result" = some .pyNone) →
      ns.find? scanKeep = none →
      extractOutput stdout ns = NO_OUTPUT_MSG) := by
  refine ⟨?_, ?_, ?_, ?_, ?_⟩
  · simp [execute, executeSt, hv, he]
  · intro hs; simp [extractOutput, hs]
  · intro s hs hr; subst hs; simp [extractOutput, hr]
  · rintro kv hs (hr | hr) hf <;> (subst hs; simp [extractOutput, hr, hf])
  · rintro hs (hr | hr) hf <;> (subst hs; simp [extractOutput, hr, hf])

/-- C6 witness: stdout empty and `result = 7` gives output `"7"`. -/
theorem C6_output_priority_witness :
    validate_code rm0 "x" = none ∧
    evRes "x" = .ok ⟨"", [("result", PyVal.pyVal "7")]⟩ ∧
    (execute rm0 evRes 0 "x").output =
      some (extractOutput "" [("result", PyVal.pyVal "7")]) ∧
    extractOutput "" [("result", PyVal.pyVal "7")] = "7" := by
  have h := C6_output_priority rm0 evRes 0 "x" "" [("result", PyVal.pyVal "7")]
    (by decide) rfl
  refine ⟨by decide, rfl, h.1, ?_⟩
  have h2 := h.2.2.1 "7" rfl rfl
  rw [h2]; decide

/-- C8: the declared `TIMEOUT_SECONDS` is never consulted by `execute`: a
validated snippet whose evaluation completes is reported successful with
no error whatever the measured duration, even one far beyond the 5-second
budget — there is no timeout abort path. -/
theorem C8_timeout_unenforced (rmatch : String → String → Bool)
    (ev : String → Except PyError ExecOutcome) (code : String)
    (oc : ExecOutcome)
    (hv : validate_code rmatch code = none) (he : ev code = .ok oc) :
    ∀ t : Nat, TIMEOUT_SECONDS * 1000 < t →
      (execute rmatch ev t code).success = true ∧
      (execute rmatch ev t code).error = none ∧
      (execute rmatch ev t code).execution_time_ms = t := by
  intro t _
  refine ⟨?_, ?_, ?_⟩ <;> simp [execute, executeSt, hv, he]

/-- C8 witness: an endless-loop snippet passes validation and, at a
measured 999999 ms, is still reported as a success. -/
theorem C8_timeout_unenforced_witness :
    validate_code rm0 "while True:\n    pass" = none ∧
    ev0 "while True:\n    pass" = .ok ⟨"", []⟩ ∧
    TIMEOUT_SECONDS * 1000 < 999999 ∧
    (execute rm0 ev0 999999 "while True:\n    pass").success = true := by
  have h := C8_timeout_unenforced rm0 ev0 "while True:\n    pass" ⟨"", []⟩
    (by decide) rfl 999999 (by decide)
  exact ⟨by decide, rfl, by decide, h.1⟩

/-- C10: on every path — validation rejection, evaluation error, success —
`execute` leaves `sys.stdout` at its entry value when it returns. -/
theorem C10_stdout_restored {S : Type} (rmatch : String → String → Bool)
    (ev : String → Except PyError ExecOutcome) (t : Nat)
    (captured : S) (code : String) (stdout0 : S) :
    (executeSt rmatch ev t captured code stdout0).2 = stdout0 := by
  cases hv : validate_code rmatch code with
  | some m => simp [executeSt, hv]
  | none =>
    cases he : ev code with
    | error e => simp [executeSt, hv, he]
    | ok oc => simp [executeSt, hv, he]

/-- C9: every IP whose record in the mock reputation table is classified
malicious is returned as `reputation = "malicious"` with a strictly
positive threat score, and every IP absent from the table is returned as
`reputation = "unknown"` with threat score 0. -/
theorem C9_mock_reputation :
    (∀ ip ∈ maliciousIPs, (query_mock_db ip).reputation = "malicious" ∧
      0 < (query_mock_db ip).threat_score) ∧
    (∀ ip, MOCK_DB.lookup ip = none →
      (query_mock_db ip).reputation = "unknown" ∧
      (query_mock_db ip).threat_score = 0) := by
  constructor
  · decide
  · intro ip h
    simp [query_mock_db, h]

/-- C9 witness: the known brute-force scanner IP and an unknown IP. -/
theorem C9_mock_reputation_witness :
    ("89.248.172.16" ∈ maliciousIPs ∧
      (query_mock_db "89.248.172.16").reputation = "malicious" ∧
      0 < (query_mock_db "89.248.172.16").threat_score) ∧
    (MOCK_DB.lookup "10.0.0.1" = none ∧
      (query_mock_db "10.0.0.1").reputation = "unknown" ∧
      (query_mock_db "10.0.0.1").threat_score = 0) := by
  have h1 := C9_mock_reputation.1 "89.248.172.16" (by decide)
  have h2 := C9_mock_reputation.2 "10.0.0.1" (by decide)
  exact ⟨⟨by decide, h1⟩, ⟨by decide, h2⟩⟩

/-- C7: self-correction retries at most once: whenever the first execution
fails, the generator is re-invoked exactly once, with the failure
diagnostic, and if the corrected snippet also fails, `analyze` returns the
degraded low-confidence answer rather than invoking the generator a third
time (the loop count is 1, and in general never exceeds 1). -/
theorem C7_single_retry (genCode : String → Option String → String)
    (execF : String → CodeExecutor.ExecResult)
    (interp : String → String → String → String × String)
    (nR : Nat) (path query : String)
    (h0 : (execF (genCode query none)).success = false) :
    (∀ (g : String → Option String → String)
       (e : String → CodeExecutor.ExecResult)
       (i : String → String → String → String × String) (n : Nat) (p q : String),
       (analyze g e i n p q).2 ≤ 1) ∧
    (analyze genCode execF interp nR path query).2 = 1 ∧
    (analyze genCode execF interp nR path query).1.generated_code =
      genCode query (execF (genCode query none)).error ∧
    ((execF (genCode query (execF (genCode query none)).error)).success = false →
      (analyze genCode execF interp nR path query).1.confidence = "low" ∧
      (analyze genCode execF interp nR path query).1.natural_language_answer =
        "Unable to analyze: " ++
          (execF (genCode query (execF (genCode query none)).error)).error.getD "") := by
  refine ⟨?_, ?_, ?_, ?_⟩
  · intro g e i n p q
    by_cases hs : (e (g q none)).success
    · simp [analyze, MAX_RETRIES, selfCorrect, hs]
    · simp [analyze, MAX_RETRIES, selfCorrect, hs]
  · simp [analyze, MAX_RETRIES, selfCorrect, h0]
  · simp [analyze, MAX_RETRIES, selfCorrect, h0]
  · intro h1
    constructor <;> simp [analyze, MAX_RETRIES, selfCorrect, h0, h1]

/-- C7 witness: with an always-failing executor, the retry happens exactly
once and the degraded low-confidence answer is returned. -/
theorem C7_single_retry_witness :
    (exeFail (genA "q" none)).success = false ∧
    (analyze genA exeFail interpA 0 "p" "q").2 = 1 ∧
    (analyze genA exeFail interpA 0 "p" "q").1.generated_code =
      genA "q" (exeFail (genA "q" none)).error ∧
    (analyze genA exeFail interpA 0 "p" "q").1.confidence = "low" := by
  have h := C7_single_retry genA exeFail interpA 0 "p" "q" (by decide)
  refine ⟨by decide, h.2.1, h.2.2.1, ?_⟩
  exact (h.2.2.2 (by decide)).1

/-- C3 counterexample: a known agent with an unknown action, and a known
agent-action pair with its required parameter missing, both produce a
result whose status field is "success", not "error". -/
theorem C3_counterexample :
    (execute_task intelF0 analystF0 ⟨"intel", "bogus_action", [], "r"⟩).status
      = "success" ∧
    (execute_task intelF0 analystF0 ⟨"intel", "bogus_action", [], "r"⟩).output
      = none ∧
    (execute_task intelF0 analystF0 ⟨"intel", "lookup_ip", [], "r"⟩).status
      = "success" ∧
    (execute_task intelF0 analystF0 ⟨"intel", "lookup_ip", [], "r"⟩).output
      = some (.errMap "Missing 'ip_address' parameter") ∧
    ("success" : String) ≠ "error" := by
  refine ⟨by decide, by decide, by decide, by decide, by decide⟩

/-- C3 amended: the dispatcher is total (never raises) and always returns
status "success" or "error"; an unknown agent yields status "success" with
an error-map output, a known agent with an unknown action yields status
"success" with no output, a missing required parameter yields status
"success" with an error-map output, and only an exception escaping a
handler yields status "error". -/
theorem C3_dispatch_results
    (intelF : String → Except String Intel.IPReputationResponse)
    (analystF : String → Except String Analyst.AnalystResponse)
    (task : AgentTask) :
    ((execute_task intelF analystF task).status = "success" ∨
     (execute_task intelF analystF task).status = "error") ∧
    (task.agent ≠ "intel" → task.agent ≠ "analyst" →
      execute_task intelF analystF task =
        ⟨task.agent, task.action, "success",
         some (.errMap ("Unknown agent: " ++ task.agent)), none⟩) ∧
    (task.agent = "intel" → task.action ≠ "lookup_ip" →
      execute_task intelF analystF task =
        ⟨task.agent, task.action, "success", none, none⟩) ∧
    (task.agent = "analyst" → task.action ≠ "analyze_logs" →
      execute_task intelF analystF task =
        ⟨task.agent, task.action, "success", none, none⟩) ∧
    (task.agent = "intel" → task.action = "lookup_ip" →
      task.params.lookup "ip_address" = none →
      execute_task intelF analystF task =
        ⟨task.agent, task.action, "success",
         some (.errMap "Missing 'ip_address' parameter"), none⟩) ∧
    (task.agent = "analyst" → task.action = "analyze_logs" →
      task.params.lookup "query" = none →
      execute_task intelF analystF task =
        ⟨task.agent, task.action, "success",
         some (.errMap "Missing 'query' parameter"), none⟩) ∧
    (∀ ip e, task.agent = "intel" → task.action = "lookup_ip" →
      task.params.lookup "ip_address" = some ip → ip ≠ "" →
      intelF ip = .error e →
      execute_task intelF analystF task =
        ⟨task.agent, task.action, "error", none, some e⟩) := by
  refine ⟨?_, ?_, ?_, ?_, ?_, ?_, ?_⟩
  · cases h : task_output intelF analystF task with
    | ok out => exact Or.inl (by simp [execute_task, h])
    | error e => exact Or.inr (by simp [execute_task, h])
  · intro h1 h2
    simp [execute_task, task_output, h1, h2]
  · intro h1 h2
    simp [execute_task, task_output, h1, h2]
  · intro h1 h2
    simp [execute_task, task_output, h1, h2]
  · intro h1 h2 h3
    simp [execute_task, task_output, h1, h2, h3]
  · intro h1 h2 h3
    simp [execute_task, task_output, h1, h2, h3]
  · intro ip e h1 h2 h3 h4 h5
    simp [execute_task, task_output, h1, h2, h3, h4, h5, Except.map]

/-- C3 witness: the analyst action with its required query missing. -/
theorem C3_dispatch_results_witness :
    (execute_task intelF0 analystF0 ⟨"analyst", "analyze_logs", [], "r"⟩ =
      ⟨"analyst", "analyze_logs", "success",
       some (.errMap "Missing 'query' parameter"), none⟩) ∧
    ((execute_task intelF0 analystF0 ⟨"analyst", "analyze_logs", [], "r"⟩).status
        = "success" ∨
     (execute_task intelF0 analystF0 ⟨"analyst", "analyze_logs", [], "r"⟩).status
        = "error") := by
  have h := C3_dispatch_results intelF0 analystF0 ⟨"analyst", "analyze_logs", [], "r"⟩
  exact ⟨h.2.2.2.2.2.1 rfl rfl (by decide), h.1⟩

/-- Helper: with no persistence failures the loop raises nothing, appends
one record per task in order, and persists the cumulative snapshots. -/
theorem runLoop_noFail
    (intelF : String → Except String Intel.IPReputationResponse)
    (analystF : String → Except String Analyst.AnalystResponse) :
    ∀ (ts : List AgentTask) (st : InvestigationState) (k : Nat),
    runLoop intelF analystF noFail ts st k =
      ⟨none,
       { st with tasks_history :=
           st.tasks_history ++ ts.map (mkRec intelF analystF) },
       loopSnaps intelF analystF ts st,
       loopSnaps intelF analystF ts st,
       k + ts.length⟩ := by
  intro ts
  induction ts with
  | nil => intro st k; simp [runLoop, loopSnaps]
  | cons t ts ih =>
    intro st k
    simp only [runLoop, loopSnaps]
    rw [if_neg (by simp [noFail] : ¬ noFail k = true), ih]
    simp [add_task_result, mkRec, List.append_assoc]
    omega

/-- Helper: the run with no persistence failures, in closed form. -/
theorem run_noFail (planF : String → InvestigationPlan)
    (decideF : InvestigationState → NextStepDecision)
    (intelF : String → Except String Intel.IPReputationResponse)
    (analystF : String → Except String Analyst.AnalystResponse)
    (synthF : String → List TaskResult → ThreatVerdict) (id0 alert : String) :
    run_investigation planF decideF intelF analystF synthF noFail id0 alert =
      ⟨.ok (set_verdict
          { set_plan (create_investigation id0 alert) (planF alert) with
            tasks_history := (planF alert).tasks.map (mkRec intelF analystF) }
          (synthF alert
            (histOutputs ((planF alert).tasks.map (mkRec intelF analystF))))),
       create_investigation id0 alert ::
         set_plan (create_investigation id0 alert) (planF alert) ::
         (loopSnaps intelF analystF (planF alert).tasks
            (set_plan (create_investigation id0 alert) (planF alert)) ++
          [set_verdict
            { set_plan (create_investigation id0 alert) (planF alert) with
              tasks_history := (planF alert).tasks.map (mkRec intelF analystF) }
            (synthF alert
              (histOutputs ((planF alert).tasks.map (mkRec intelF analystF))))]),
       "running" :: "running" ::
         ((loopSnaps intelF analystF (planF alert).tasks
             (set_plan (create_investigation id0 alert) (planF alert))).map
            (fun s => s.status) ++ ["completed"])⟩ := by
  have hl := runLoop_noFail intelF analystF (planF alert).tasks
    (set_plan (create_investigation id0 alert) (planF alert)) 1
  simp only [run_investigation]
  rw [if_neg (by simp [noFail] : ¬ noFail 0 = true), hl]
  rfl

/-- C1 counterexample: with a planner returning no tasks and a next-step
capability that always continues with one task, the spec's decide/execute
loop runs 10 decide iterations and accumulates 10 records, while the
code's run_investigation executes nothing and is unchanged when the
next-step capability is replaced wholesale — it is never consulted. -/
theorem C1_counterexample :
    (∃ st, (run_investigation planF0 decideGo intelF0 analystF0 synthF0
        noFail "inv" "a").result = .ok st ∧ st.tasks_history.length = 0) ∧
    (specRunInvestigation decideGo intelF0 analystF0 synthF0
        "inv" "a").tasks_history.length = 10 ∧
    run_investigation planF0 decideGo intelF0 analystF0 synthF0
        noFail "inv" "a" =
      run_investigation planF0 decideStop intelF0 analystF0 synthF0
        noFail "inv" "a" := by
  refine ⟨⟨_, rfl, by decide⟩, by decide, rfl⟩

/-- C1 amended: run_investigation never consults the next-step planning
capability (its outcome is identical for every such capability); it makes
the single up-front planning call, executes exactly the planned tasks in
order, then synthesizes and completes. -/
theorem C1_no_decide_loop (planF : String → InvestigationPlan)
    (decideF : InvestigationState → NextStepDecision)
    (intelF : String → Except String Intel.IPReputationResponse)
    (analystF : String → Except String Analyst.AnalystResponse)
    (synthF : String → List TaskResult → ThreatVerdict) (id0 alert : String) :
    (∀ decideF2,
      run_investigation planF decideF intelF analystF synthF noFail id0 alert =
      run_investigation planF decideF2 intelF analystF synthF noFail id0 alert) ∧
    (∃ st,
      (run_investigation planF decideF intelF analystF synthF
          noFail id0 alert).result = .ok st ∧
      st.tasks_history = (planF alert).tasks.map (mkRec intelF analystF) ∧
      st.status = "completed" ∧
      st.plan = some (planF alert)) := by
  refine ⟨fun _ => rfl, ?_⟩
  rw [run_noFail]
  exact ⟨_, rfl, by simp [set_verdict, set_plan, create_investigation],
    by simp [set_verdict], by simp [set_verdict, set_plan]⟩

/-- Helper: the histories of the loop snapshots are the successive
extensions of the starting history, one record at a time. -/
theorem loopSnaps_hist
    (intelF : String → Except String Intel.IPReputationResponse)
    (analystF : String → Except String Analyst.AnalystResponse) :
    ∀ (ts : List AgentTask) (st : InvestigationState),
    (loopSnaps intelF analystF ts st).map (fun s => s.tasks_history) =
      cumAppend st.tasks_history (ts.map (mkRec intelF analystF)) := by
  intro ts
  induction ts with
  | nil => intro st; simp [loopSnaps, cumAppend]
  | cons t ts ih =>
    intro st
    simp [loopSnaps, cumAppend, ih, add_task_result, mkRec]

/-- Helper: the i-th entry of the cumulative-history sequence is the first
i+1 records appended to the base. -/
theorem cumAppend_get :
    ∀ (rs base : List HistEntry) (i : Nat),
    (cumAppend base rs)[i]? =
      if i < rs.length then some (base ++ rs.take (i + 1)) else none := by
  intro rs
  induction rs with
  | nil => intro base i; simp [cumAppend]
  | cons r rs ih =>
    intro base i
    cases i with
    | zero => simp [cumAppend]
    | succ i => simp [cumAppend, ih, List.append_assoc]

/-- Helper: when every persistence write from index `k` on raises and the
loop reaches it, the loop aborts at that write having persisted the first
`k - j` snapshots, the failing task's record already in memory. -/
theorem runLoop_crash
    (intelF : String → Except String Intel.IPReputationResponse)
    (analystF : String → Except String Analyst.AnalystResponse) (k : Nat) :
    ∀ (ts : List AgentTask) (st : InvestigationState) (j : Nat),
    j ≤ k → k - j < ts.length →
    runLoop intelF analystF (failFrom k) ts st j =
      ⟨some "persistence failure",
       { st with tasks_history := st.tasks_history ++
           ((ts.take (k - j + 1)).map (mkRec intelF analystF)) },
       loopSnaps intelF analystF (ts.take (k - j)) st,
       loopSnaps intelF analystF (ts.take (k - j + 1)) st,
       k + 1⟩ := by
  intro ts
  induction ts with
  | nil => intro st j hj hlen; simp at hlen
  | cons t ts ih =>
    intro st j hj hlen
    by_cases hjk : k ≤ j
    · have hj' : j = k := le_antisymm hj hjk
      subst hj'
      simp only [runLoop]
      rw [if_pos (by simp [failFrom] : failFrom j j = true)]
      simp [Nat.sub_self, loopSnaps, add_task_result, mkRec]
    · have hff : ¬ failFrom k j = true := by
        simp [failFrom]; omega
      have h2 : k - (j + 1) < ts.length := by
        simp at hlen; omega
      have h3 : k - j = (k - (j + 1)) + 1 := by omega
      simp only [runLoop]
      rw [if_neg hff,
        ih (add_task_result st t (execute_task intelF analystF t)) (j + 1)
          (by omega) h2]
      simp only [h3, List.take_succ_cons, loopSnaps]
      simp [add_task_result, mkRec, List.append_assoc]

/-- Helper: the run whose persistence writes all fail from index `k` on
(`1 ≤ k`, failing within the loop), in closed form: the investigation
surfaces the persistence failure, having persisted the creation snapshot,
the plan snapshot and the first `k - 1` per-task snapshots. -/
theorem run_crash (planF : String → InvestigationPlan)
    (decideF : InvestigationState → NextStepDecision)
    (intelF : String → Except String Intel.IPReputationResponse)
    (analystF : String → Except String Analyst.AnalystResponse)
    (synthF : String → List TaskResult → ThreatVerdict) (id0 alert : String)
    (k : Nat) (hk : 1 ≤ k) (hn : k - 1 < (planF alert).tasks.length) :
    run_investigation planF decideF intelF analystF synthF
        (failFrom k) id0 alert =
      ⟨.error "persistence failure",
       create_investigation id0 alert ::
         set_plan (create_investigation id0 alert) (planF alert) ::
         (loopSnaps intelF analystF ((planF alert).tasks.take (k - 1))
            (set_plan (create_investigation id0 alert) (planF alert)) ++ []),
       "running" :: "running" ::
         ((loopSnaps intelF analystF ((planF alert).tasks.take (k - 1 + 1))
             (set_plan (create_investigation id0 alert) (planF alert))).map
            (fun s => s.status) ++ ["failed"])⟩ := by
  have hl := runLoop_crash intelF analystF k (planF alert).tasks
    (set_plan (create_investigation id0 alert) (planF alert)) 1 hk hn
  simp only [run_investigation]
  rw [if_neg (show ¬ failFrom k 0 = true by simp [failFrom]; omega), hl]
  simp only [emergency]
  rw [if_pos (show failFrom k (k + 1) = true by simp [failFrom])]
  rfl

/-- C4: with no persistence failures, each task's record is appended and
the whole state persisted before the next task runs — the persisted trace
is exactly creation, plan, then the cumulative per-task snapshots, then
the final state — the i-th per-task snapshot holding precisely the first
i+1 records; and when every write from the k-th on raises (a crash at that
write), the persisted trace still ends with the records of all tasks
before the in-flight one, so at most that single task is lost. -/
theorem C4_persist_each_task (planF : String → InvestigationPlan)
    (decideF : InvestigationState → NextStepDecision)
    (intelF : String → Except String Intel.IPReputationResponse)
    (analystF : String → Except String Analyst.AnalystResponse)
    (synthF : String → List TaskResult → ThreatVerdict) (id0 alert : String)
    (k : Nat) (hk : 1 ≤ k) (hn : k - 1 < (planF alert).tasks.length) :
    ((run_investigation planF decideF intelF analystF synthF
        noFail id0 alert).persisted.map (fun s => s.tasks_history) =
      [] :: [] ::
        (cumAppend [] ((planF alert).tasks.map (mkRec intelF analystF)) ++
         [(planF alert).tasks.map (mkRec intelF analystF)])) ∧
    (∀ i, (cumAppend [] ((planF alert).tasks.map (mkRec intelF analystF)))[i]? =
      if i < (planF alert).tasks.length
      then some (((planF alert).tasks.take (i + 1)).map (mkRec intelF analystF))
      else none) ∧
    ((run_investigation planF decideF intelF analystF synthF
        (failFrom k) id0 alert).persisted.map (fun s => s.tasks_history) =
      [] :: [] ::
        cumAppend [] (((planF alert).tasks.take (k - 1)).map
          (mkRec intelF analystF))) ∧
    (run_investigation planF decideF intelF analystF synthF
        (failFrom k) id0 alert).result = .error "persistence failure" := by
  refine ⟨?_, ?_, ?_, ?_⟩
  · rw [run_noFail]
    simp [loopSnaps_hist, set_plan, create_investigation, set_verdict]
  · intro i
    rw [cumAppend_get]
    simp [List.map_take]
  · rw [run_crash planF decideF intelF analystF synthF id0 alert k hk hn]
    simp [loopSnaps_hist, set_plan, create_investigation]
  · rw [run_crash planF decideF intelF analystF synthF id0 alert k hk hn]

/-- C4 witness: a two-task plan with the crash at the second write. -/
theorem C4_persist_each_task_witness :
    1 ≤ 2 ∧ 2 - 1 < (planF2 "a").tasks.length ∧
    ((run_investigation planF2 decideStop intelF0 analystF0 synthF0
        noFail "inv" "a").persisted.map (fun s => s.tasks_history) =
      [] :: [] ::
        (cumAppend [] ((planF2 "a").tasks.map (mkRec intelF0 analystF0)) ++
         [(planF2 "a").tasks.map (mkRec intelF0 analystF0)])) ∧
    ((run_investigation planF2 decideStop intelF0 analystF0 synthF0
        (failFrom 2) "inv" "a").persisted.map (fun s => s.tasks_history) =
      [] :: [] ::
        cumAppend [] (((planF2 "a").tasks.take 1).map
          (mkRec intelF0 analystF0))) := by
  have h := C4_persist_each_task planF2 decideStop intelF0 analystF0 synthF0
    "inv" "a" 2 (by decide) (by decide)
  exact ⟨by decide, by decide, h.1, h.2.2.1⟩

/-- Helper: unfolding of `statusMonotone` on a cons. -/
theorem statusMonotone_cons (a : String) (rest : List String) :
    statusMonotone (a :: rest) =
      (match rest with
       | [] => true
       | b :: _ => statusStepOK a b && statusMonotone rest) := by
  cases rest <;> rfl

/-- Helper: a block of `running` states followed by at most one terminal
state has a monotone status sequence. -/
theorem statusMonotone_states :
    ∀ (l tail : List InvestigationState),
    (∀ s ∈ l, s.status = "running") →
    (tail = [] ∨ ∃ x, tail = [x] ∧
      (x.status = "completed" ∨ x.status = "failed")) →
    statusMonotone ((l ++ tail).map (fun s => s.status)) = true := by
  intro l
  induction l with
  | nil =>
    intro tail _ ht
    rcases ht with rfl | ⟨x, rfl, _⟩
    · simp [statusMonotone]
    · simp [statusMonotone]
  | cons a l ih =>
    intro tail hl ht
    have ha : a.status = "running" := hl a (List.mem_cons_self a l)
    have hl' : ∀ s ∈ l, s.status = "running" :=
      fun s hs => hl s (List.mem_cons_of_mem a hs)
    have hrec := ih tail hl' ht
    rw [List.cons_append, List.map_cons, statusMonotone_cons]
    cases hrest : (l ++ tail).map (fun s => s.status) with
    | nil => simp
    | cons b rest2 =>
      have hbmem : b ∈ (l ++ tail).map (fun s => s.status) := by
        rw [hrest]; exact List.mem_cons_self b rest2
      obtain ⟨sb, hsb, rfl⟩ := List.mem_map.mp hbmem
      have hb : sb.status = "running" ∨ sb.status = "completed" ∨
          sb.status = "failed" := by
        rcases List.mem_append.mp hsb with h | h
        · exact Or.inl (hl' sb h)
        · rcases ht with rfl | ⟨x, rfl, hx⟩
          · simp at h
          · simp at h
            subst h
            exact Or.inr hx
      have hstep : statusStepOK a.status sb.status = true := by
        rw [ha]
        rcases hb with h | h | h <;> rw [h] <;> decide
      rw [hrest] at hrec
      simp [hstep, hrec]

/-- Helper: every snapshot the loop appends keeps status `running`. -/
theorem loopSnaps_running
    (intelF : String → Except String Intel.IPReputationResponse)
    (analystF : String → Except String Analyst.AnalystResponse) :
    ∀ (ts : List AgentTask) (st : InvestigationState),
    st.status = "running" →
    ∀ s ∈ loopSnaps intelF analystF ts st, s.status = "running" := by
  intro ts
  induction ts with
  | nil => intro st _ s hs; simp [loopSnaps] at hs
  | cons t ts ih =>
    intro st h s hs
    have h2 : (add_task_result st t (execute_task intelF analystF t)).status
        = "running" := h
    simp only [loopSnaps, List.mem_cons] at hs
    rcases hs with rfl | hs
    · exact h2
    · exact ih _ h2 s hs

/-- Helper: under any persistence schedule, every snapshot the loop
persists, and its final in-memory state, keep status `running`. -/
theorem runLoop_persisted_running
    (intelF : String → Except String Intel.IPReputationResponse)
    (analystF : String → Except String Analyst.AnalystResponse)
    (failAt : Nat → Bool) :
    ∀ (ts : List AgentTask) (st : InvestigationState) (k : Nat),
    st.status = "running" →
    (∀ s ∈ (runLoop intelF analystF failAt ts st k).persisted,
      s.status = "running") ∧
    (runLoop intelF analystF failAt ts st k).final.status = "running" := by
  intro ts
  induction ts with
  | nil =>
    intro st k h
    constructor
    · intro s hs; simp [runLoop] at hs
    · simpa [runLoop] using h
  | cons t ts ih =>
    intro st k h
    have h2 : (add_task_result st t (execute_task intelF analystF t)).status
        = "running" := h
    by_cases hk : failAt k = true
    · constructor
      · intro s hs; simp [runLoop, hk] at hs
      · simp only [runLoop]
        rw [if_pos hk]
        exact h2
    · have hrec := ih (add_task_result st t (execute_task intelF analystF t))
        (k + 1) h2
      constructor
      · intro s hs
        simp only [runLoop] at hs
        rw [if_neg hk] at hs
        simp only [List.mem_cons] at hs
        rcases hs with rfl | hs
        · exact h2
        · exact hrec.1 s hs
      · simp only [runLoop]
        rw [if_neg hk]
        exact hrec.2

/-- C5 counterexample: when the persist following `set_verdict` raises (the
second write here, with an empty plan), the in-memory status moves
`running → completed → failed`: the claimed monotonicity fails on this
execution path. -/
theorem C5_counterexample :
    (run_investigation planF0 decideGo intelF0 analystF0 synthF0
        (failOnly 1) "inv" "a").statusTrace =
      ["running", "running", "completed", "failed"] ∧
    statusMonotone ["running", "running", "completed", "failed"] = false := by
  exact ⟨by decide, by decide⟩

/-- C5 amended: the persisted status sequence is monotone under every
persistence-failure schedule (a persisted terminal state is never followed
by a different persisted status), and on the failure-free path the
in-memory status sequence is monotone as well, ending `completed`; the one
deviation (shown by the counterexample) is that a persistence failure
after `set_verdict` moves the in-memory status `completed → failed`. -/
theorem C5_status_monotone (planF : String → InvestigationPlan)
    (decideF : InvestigationState → NextStepDecision)
    (intelF : String → Except String Intel.IPReputationResponse)
    (analystF : String → Except String Analyst.AnalystResponse)
    (synthF : String → List TaskResult → ThreatVerdict)
    (failAt : Nat → Bool) (id0 alert : String) :
    statusMonotone
      ((run_investigation planF decideF intelF analystF synthF
          failAt id0 alert).persisted.map (fun s => s.status)) = true ∧
    statusMonotone
      ((run_investigation planF decideF intelF analystF synthF
          noFail id0 alert).statusTrace) = true := by
  constructor
  · by_cases h0 : failAt 0 = true
    · simp only [run_investigation]
      rw [if_pos h0]
      simp only [emergency]
      by_cases h1 : failAt 1 = true
      · rw [if_pos h1]
        simp [create_investigation, statusMonotone]
      · rw [if_neg h1]
        simp [create_investigation, set_plan, statusMonotone, statusStepOK]
    · set L := runLoop intelF analystF failAt (planF alert).tasks
        (set_plan (create_investigation id0 alert) (planF alert)) 1 with hL
      have hper := runLoop_persisted_running intelF analystF failAt
        (planF alert).tasks
        (set_plan (create_investigation id0 alert) (planF alert)) 1 rfl
      rw [← hL] at hper
      have hl : ∀ s ∈ create_investigation id0 alert ::
          set_plan (create_investigation id0 alert) (planF alert) ::
          L.persisted, s.status = "running" := by
        intro s hs
        rcases List.mem_cons.mp hs with rfl | hs
        · rfl
        rcases List.mem_cons.mp hs with rfl | hs
        · rfl
        exact hper.1 s hs
      simp only [run_investigation]
      rw [if_neg h0, ← hL]
      cases hf : L.failure with
      | some e =>
        simp only [emergency]
        by_cases hemf : failAt L.nextIdx = true
        · rw [if_pos hemf]
          have := statusMonotone_states _ [] hl (Or.inl rfl)
          simpa using this
        · rw [if_neg hemf]
          have := statusMonotone_states _
            [{ L.final with
               status := "failed"
               tasks_history :=
                 L.final.tasks_history ++ [HistEntry.err e] }]
            hl (Or.inr ⟨_, rfl, Or.inr rfl⟩)
          simpa using this
      | none =>
        by_cases hv : failAt L.nextIdx = true
        · rw [if_pos hv]
          simp only [emergency]
          by_cases hw : failAt (L.nextIdx + 1) = true
          · rw [if_pos hw]
            have := statusMonotone_states _ [] hl (Or.inl rfl)
            simpa using this
          · rw [if_neg hw]
            have := statusMonotone_states _
              [{ set_verdict L.final
                   (synthF alert (histOutputs L.final.tasks_history)) with
                 status := "failed"
                 tasks_history :=
                   (set_verdict L.final
                     (synthF alert
                       (histOutputs L.final.tasks_history))).tasks_history ++
                     [HistEntry.err "persistence failure"] }]
              hl (Or.inr ⟨_, rfl, Or.inr rfl⟩)
            simpa using this
        · rw [if_neg hv]
          have := statusMonotone_states _
            [set_verdict L.final
              (synthF alert (histOutputs L.final.tasks_history))]
            hl (Or.inr ⟨_, rfl, Or.inl rfl⟩)
          simpa using this
  · rw [run_noFail]
    have hsn : ∀ s ∈ loopSnaps intelF analystF (planF alert).tasks
        (set_plan (create_investigation id0 alert) (planF alert)),
        s.status = "running" :=
      loopSnaps_running intelF analystF (planF alert).tasks
        (set_plan (create_investigation id0 alert) (planF alert)) rfl
    have hl : ∀ s ∈ create_investigation id0 alert ::
        set_plan (create_investigation id0 alert) (planF alert) ::
        loopSnaps intelF analystF (planF alert).tasks
          (set_plan (create_investigation id0 alert) (planF alert)),
        s.status = "running" := by
      intro s hs
      rcases List.mem_cons.mp hs with rfl | hs
      · rfl
      rcases List.mem_cons.mp hs with rfl | hs
      · rfl
      exact hsn s hs
    have := statusMonotone_states _
      [set_verdict
        { set_plan (create_investigation id0 alert) (planF alert) with
          tasks_history := (planF alert).tasks.map (mkRec intelF analystF) }
        (synthF alert
          (histOutputs ((planF alert).tasks.map (mkRec intelF analystF))))]
      hl (Or.inr ⟨_, rfl, Or.inl rfl⟩)
    simpa [create_investigation, set_plan, set_verdict] using this
